import Mathlib

/-!
Shallow embedding of a small meals/diet-tracking HTTP API:
two route groups (`usersRoutes`, `mealsRoutes`) over two relational
tables (`users`, `meals`), modelled as lists of rows.  Handlers are
pure functions from (resolved session user id, request parameters,
request body, store) to (response, new store).  Fresh UUIDs produced by
`randomUUID()` are passed in as explicit parameters.
-/

/-- A row of the `meals` table.  `date` is stored as integer epoch
milliseconds (`date.getTime()`). -/
structure Meal where
  id : String
  name : String
  description : String
  is_on_diet : Bool
  date : Int
  user_id : String
deriving Repr, DecidableEq

/-- A row of the `users` table. -/
structure User where
  id : String
  name : String
  email : String
  session_id : String
deriving Repr, DecidableEq

abbrev MealStore := List Meal
abbrev UserStore := List User

/-- The metrics object returned by `GET /metrics`. -/
structure Metrics where
  totalMeals : Nat
  totalMealsOnDiet : Nat
  totalMealsOffDiet : Nat
  bestOnDietSequence : Nat
deriving Repr, DecidableEq

/-- Response bodies the handlers can produce. -/
inductive Body where
  | empty
  | errorMsg (error : String)
  | message (message : String)
  | meals (meals : List Meal)
  | metricsBody (metrics : Metrics)
  | users (users : List User)
deriving Repr, DecidableEq

/-- A handler outcome: either an HTTP response with a status code and a
body, or a schema-validation failure (a thrown `ZodError`, surfaced by
the runtime before the handler body past the `parse` call runs). -/
inductive Resp where
  | http (status : Nat) (body : Body)
  | validationError
deriving Repr, DecidableEq

/-- Zod `z.string().uuid()`: the id must be syntactically a UUID, i.e. the
8-4-4-4-12 hex-with-dashes shape. -/
def isHexDigit (c : Char) : Bool :=
  c.isDigit || ('a' ≤ c && c ≤ 'f') || ('A' ≤ c && c ≤ 'F')

def isUUID (s : String) : Bool :=
  let cs := s.toList
  cs.length == 36 &&
    (List.range 36).all (fun i =>
      if i == 8 || i == 13 || i == 18 || i == 23 then
        cs.getD i ' ' == '-'
      else
        isHexDigit (cs.getD i ' '))

/-- The parsed create/update body `{name, description, isOnDiet, date}`
(after `z.coerce.date()` succeeded; `date` already as epoch ms). -/
structure MealBody where
  name : String
  description : String
  isOnDiet : Bool
  date : Int
deriving Repr, DecidableEq

/-- Handler for `POST /` of `mealsRoutes`: validate the body, insert one row with a
fresh id and the caller's user id, reply 201 empty.  A request body that
fails `createMealBodySchema.parse` is `none`. -/
def createMealHandler (userId freshId : String) (body : Option MealBody)
    (store : MealStore) : Resp × MealStore :=
  match body with
  | none => (Resp.validationError, store)
  | some b =>
      (Resp.http 201 Body.empty,
        store ++ [⟨freshId, b.name, b.description, b.isOnDiet, b.date, userId⟩])

/-- Handler for `GET /` of `mealsRoutes`: all meals whose `user_id` matches the
caller. -/
def listMealsHandler (userId : String) (store : MealStore) : Resp :=
  Resp.http 200 (Body.meals (store.filter (fun m => m.user_id == userId)))

/-- The accumulator of the `reduce` in the metrics handler. -/
structure SeqAcc where
  bestOnDietSequence : Nat
  currentSequence : Nat
deriving Repr, DecidableEq

/-- One step of the `reduce`: increment the current sequence on an
on-diet meal, reset it to zero otherwise, then raise the best sequence
if the current one beats it. -/
def seqStep (acc : SeqAcc) (meal : Meal) : SeqAcc :=
  let current := if meal.is_on_diet then acc.currentSequence + 1 else 0
  let best :=
    if current > acc.bestOnDietSequence then current else acc.bestOnDietSequence
  ⟨best, current⟩

/-- Knex `orderBy('date', 'desc')`: the caller's meals sorted by date
descending. -/
def mealsByDateDesc (userId : String) (store : MealStore) : List Meal :=
  List.insertionSort (fun a b => b.date ≤ a.date)
    (store.filter (fun m => m.user_id == userId))

/-- The four figures computed by `GET /metrics`, scoped to `userId`:
two `count` queries split on `is_on_diet`, a length, and the streak
`reduce` over the date-descending list. -/
def computeMetrics (userId : String) (store : MealStore) : Metrics :=
  let mealsOnDiet :=
    (store.filter (fun m => m.user_id == userId && m.is_on_diet)).length
  let mealsOffDiet :=
    (store.filter (fun m => m.user_id == userId && !m.is_on_diet)).length
  let meals := mealsByDateDesc userId store
  let acc := meals.foldl seqStep ⟨0, 0⟩
  ⟨meals.length, mealsOnDiet, mealsOffDiet, acc.bestOnDietSequence⟩

/-- Handler for `GET /metrics` of `mealsRoutes`. -/
def metricsHandler (userId : String) (store : MealStore) : Resp :=
  Resp.http 200 (Body.metricsBody (computeMetrics userId store))

/-- Handler for `GET /:id` of `mealsRoutes`: validate the id as a UUID, look the
meal up by id alone, 404 if absent, otherwise return the rows matching
both the caller's user id and the id. -/
def getMealByIdHandler (userId mealId : String) (store : MealStore) : Resp :=
  if isUUID mealId then
    match store.find? (fun m => m.id == mealId) with
    | none => Resp.http 404 (Body.errorMsg "Meal not found")
    | some _ =>
        Resp.http 200
          (Body.meals
            (store.filter (fun m => m.user_id == userId && m.id == mealId)))
  else Resp.validationError

/-- Handler for `PUT /:id` of `mealsRoutes`: validate the id, look the meal up by id
alone (404 if absent), only then validate the body, and update the rows
matching both the caller's user id and the id. -/
def updateMealHandler (userId mealId : String) (body : Option MealBody)
    (store : MealStore) : Resp × MealStore :=
  if isUUID mealId then
    match store.find? (fun m => m.id == mealId) with
    | none => (Resp.http 404 (Body.errorMsg "Meal not found"), store)
    | some _ =>
        match body with
        | none => (Resp.validationError, store)
        | some b =>
            (Resp.http 200 Body.empty,
              store.map (fun m =>
                if m.user_id == userId && m.id == mealId then
                  { m with
                      name := b.name
                      description := b.description
                      is_on_diet := b.isOnDiet
                      date := b.date }
                else m))
  else (Resp.validationError, store)

/-- Handler for `DELETE /:id` of `mealsRoutes`: validate the id, look the meal up by
id alone (404 if absent), delete the rows matching both the caller's
user id and the id. -/
def deleteMealHandler (userId mealId : String) (store : MealStore) :
    Resp × MealStore :=
  if isUUID mealId then
    match store.find? (fun m => m.id == mealId) with
    | none => (Resp.http 404 (Body.errorMsg "Meal not found"), store)
    | some _ =>
        (Resp.http 200 Body.empty,
          store.filter (fun m => !(m.user_id == userId && m.id == mealId)))
  else (Resp.validationError, store)

/-- The cookie a handler asks the client to persist. -/
structure Cookie where
  name : String
  value : String
  path : String
  maxAge : Nat
deriving Repr, DecidableEq

/-- Outcome of `POST /` of `usersRoutes`: the response, the cookie set
on the reply (if any), and the users table afterwards. -/
structure RegisterResult where
  resp : Resp
  cookie : Option Cookie
  users : UserStore
deriving Repr, DecidableEq

/-- Handler for `POST /` of `usersRoutes`: if the request carries no `sessionId`
cookie, generate a fresh one and set the reply cookie (path `/`,
max-age 7 days) — this happens before the body is parsed and before the
duplicate-email check.  Then parse the body, reject a duplicate email
with 400, otherwise insert the new user row and reply 201. -/
def registerHandler (reqSessionId : Option String)
    (freshSessionId freshUserId : String)
    (body : Option (String × String)) (users : UserStore) : RegisterResult :=
  let sessionId := match reqSessionId with
    | some s => s
    | none => freshSessionId
  let cookie : Option Cookie := match reqSessionId with
    | some _ => none
    | none => some ⟨"sessionId", freshSessionId, "/", 60 * 60 * 24 * 7⟩
  match body with
  | none => ⟨Resp.validationError, cookie, users⟩
  | some (name, email) =>
      match users.find? (fun u => u.email == email) with
      | some _ =>
          ⟨Resp.http 400 (Body.message "User already exists!"), cookie, users⟩
      | none =>
          ⟨Resp.http 201 Body.empty, cookie,
            users ++ [⟨freshUserId, name, email, sessionId⟩]⟩

/-- Handler for `GET /` of `usersRoutes`: the users whose `session_id` matches the
request's cookie (no cookie is ever set by this handler). -/
def listUsersHandler (reqSessionId : Option String) (users : UserStore) :
    Resp × Option Cookie :=
  let sid := reqSessionId.getD ""
  (Resp.http 200 (Body.users (users.filter (fun u => u.session_id == sid))),
    none)

/-- Modelled from the spec:  "maintaining a running streak counter that
increments on an on-diet meal and resets to zero on an off-diet meal;
track the maximum streak seen.  This is a single left-to-right fold with
two accumulators (current streak, best streak)" — the spec's fold over
the diet-flag sequence, kept separate from the code's `seqStep` so the
two can be compared. -/
def specStep (acc : Nat × Nat) (f : Bool) : Nat × Nat :=
  let current := if f then acc.2 + 1 else 0
  (max acc.1 current, current)

def specBestSequence (flags : List Bool) : Nat :=
  (flags.foldl specStep (0, 0)).1

/-! ## Concrete sample data -/

/-- A users table holding one registered user. -/
def dupEmailUsers : UserStore := [⟨"u1", "Alice", "alice@mail.com", "s1"⟩]

/-- Seven meals of user `u`, dates descending, with on-diet flags
`[true, true, false, true, true, true, false]`. -/
def sampleMeals : MealStore :=
  [⟨"m1", "a", "", true, 70, "u"⟩, ⟨"m2", "b", "", true, 60, "u"⟩,
   ⟨"m3", "c", "", false, 50, "u"⟩, ⟨"m4", "d", "", true, 40, "u"⟩,
   ⟨"m5", "e", "", true, 30, "u"⟩, ⟨"m6", "f", "", true, 20, "u"⟩,
   ⟨"m7", "g", "", false, 10, "u"⟩]

/-- A syntactically valid UUID used as a concrete meal id. -/
def sampleUUID : String := "123e4567-e89b-12d3-a456-426614174000"

/-! ## C4: duplicate-email registration -/

/-- C4 (counterexample): with one user row whose email is
`alice@mail.com`, registering that email again responds 400 whose
message is `User already exists!` — not the claimed `User already
exists` — and inserts no row. -/
theorem C4_counterexample :
    (registerHandler (some "s2") "fs" "fu2" (some ("Bob", "alice@mail.com"))
        dupEmailUsers).resp = Resp.http 400 (Body.message "User already exists!") ∧
    (registerHandler (some "s2") "fs" "fu2" (some ("Bob", "alice@mail.com"))
        dupEmailUsers).resp ≠ Resp.http 400 (Body.message "User already exists") ∧
    (registerHandler (some "s2") "fs" "fu2" (some ("Bob", "alice@mail.com"))
        dupEmailUsers).users = dupEmailUsers := by
  refine ⟨by decide, by decide, by decide⟩

/-- C4 (amended): for every Register request whose email already exists
in the users table, the handler responds 400 carrying the message
`User already exists!` and inserts no row, leaving the users table
unchanged. -/
theorem C4_duplicate_email (reqSid : Option String) (fs fu nm email : String)
    (users : UserStore) (hdup : ∃ u ∈ users, u.email = email) :
    (registerHandler reqSid fs fu (some (nm, email)) users).resp
        = Resp.http 400 (Body.message "User already exists!") ∧
    (registerHandler reqSid fs fu (some (nm, email)) users).users = users := by
  have hsome : (users.find? (fun u => u.email == email)).isSome := by
    rw [List.find?_isSome]
    obtain ⟨u, hu, he⟩ := hdup
    exact ⟨u, hu, by simp [he]⟩
  obtain ⟨u, hfind⟩ := Option.isSome_iff_exists.mp hsome
  simp [registerHandler, hfind]

/-- C4 (witness): the amended statement at the concrete duplicate store. -/
theorem C4_duplicate_email_instance :
    (registerHandler (some "s2") "fs" "fu2" (some ("Bob", "alice@mail.com"))
        dupEmailUsers).resp = Resp.http 400 (Body.message "User already exists!") ∧
    (registerHandler (some "s2") "fs" "fu2" (some ("Bob", "alice@mail.com"))
        dupEmailUsers).users = dupEmailUsers :=
  C4_duplicate_email (some "s2") "fs" "fu2" "Bob" "alice@mail.com" dupEmailUsers
    ⟨⟨"u1", "Alice", "alice@mail.com", "s1"⟩, by decide, rfl⟩

/-! ## C5: when the sessionId cookie is set -/

/-- C5 (counterexample): a Register request with no pre-existing session
token that fails with the duplicate-email error still sets the
`sessionId` cookie (path `/`, max-age 604800). -/
theorem C5_counterexample :
    (registerHandler none "fresh-session" "fu2" (some ("Bob", "alice@mail.com"))
        dupEmailUsers).resp = Resp.http 400 (Body.message "User already exists!") ∧
    (registerHandler none "fresh-session" "fu2" (some ("Bob", "alice@mail.com"))
        dupEmailUsers).cookie = some ⟨"sessionId", "fresh-session", "/", 604800⟩ := by
  refine ⟨by decide, by decide⟩

/-- C5 (amended): the `sessionId` cookie, path `/`, max-age 604800, is
set on a Register request exactly when the request carries no
pre-existing session token — whether or not the registration then
succeeds — and the user-listing handler never sets a cookie. -/
theorem C5_cookie_iff_no_session :
    (∀ reqSid fs fu body users,
      (registerHandler reqSid fs fu body users).cookie
        = match reqSid with
          | some _ => none
          | none => some ⟨"sessionId", fs, "/", 604800⟩) ∧
    (∀ reqSid users, (listUsersHandler reqSid users).2 = none) := by
  constructor
  · intro reqSid fs fu body users
    cases reqSid with
    | none =>
        cases body with
        | none => simp [registerHandler]
        | some p =>
            rcases p with ⟨nm, em⟩
            cases hfind : users.find? (fun u => u.email == em) <;>
              simp [registerHandler, hfind]
    | some s =>
        cases body with
        | none => simp [registerHandler]
        | some p =>
            rcases p with ⟨nm, em⟩
            cases hfind : users.find? (fun u => u.email == em) <;>
              simp [registerHandler, hfind]
  · intro reqSid users
    simp [listUsersHandler]

/-! ## C6: invalid UUID fails validation before any store access -/

/-- C6: for every Get, Update or Delete request whose id is not
syntactically a UUID, the handler reports a validation error and the
store is returned unchanged (the result does not depend on the store at
all). -/
theorem C6_invalid_id_validation (userId mealId : String)
    (body : Option MealBody) (store : MealStore)
    (h : isUUID mealId = false) :
    getMealByIdHandler userId mealId store = Resp.validationError ∧
    updateMealHandler userId mealId body store = (Resp.validationError, store) ∧
    deleteMealHandler userId mealId store = (Resp.validationError, store) := by
  refine ⟨?_, ?_, ?_⟩ <;>
    simp [getMealByIdHandler, updateMealHandler, deleteMealHandler, h]

/-- C6 (witness): the statement at a concrete non-UUID id. -/
theorem C6_invalid_id_validation_instance :
    getMealByIdHandler "u" "not-a-uuid" sampleMeals = Resp.validationError ∧
    updateMealHandler "u" "not-a-uuid" none sampleMeals
        = (Resp.validationError, sampleMeals) ∧
    deleteMealHandler "u" "not-a-uuid" sampleMeals
        = (Resp.validationError, sampleMeals) :=
  C6_invalid_id_validation "u" "not-a-uuid" none sampleMeals (by decide)

/-! ## C10: Update validates the body only after the existence check -/

/-- C10: for every Update request whose id is a syntactically valid UUID
matching no meal in the store, the response is the 404 error and the
store is unchanged, for every body — well-shaped or not. -/
theorem C10_update_404_before_body (userId mealId : String)
    (body : Option MealBody) (store : MealStore)
    (huuid : isUUID mealId = true)
    (habs : ∀ m ∈ store, m.id ≠ mealId) :
    updateMealHandler userId mealId body store
      = (Resp.http 404 (Body.errorMsg "Meal not found"), store) := by
  have hfind : store.find? (fun m => m.id == mealId) = none := by
    rw [List.find?_eq_none]
    intro m hm
    simpa using habs m hm
  simp [updateMealHandler, huuid, hfind]

/-- C10 (witness): a valid UUID absent from the sample store yields 404
even with an ill-shaped body. -/
theorem C10_update_404_before_body_instance :
    updateMealHandler "u" sampleUUID none sampleMeals
      = (Resp.http 404 (Body.errorMsg "Meal not found"), sampleMeals) :=
  C10_update_404_before_body "u" sampleUUID none sampleMeals (by decide) (by decide)

/-! ## C8: metrics for a user owning zero meals -/

/-- C8: for a user owning zero meals, the metrics endpoint returns all
four figures equal to zero. -/
theorem C8_metrics_zero (userId : String) (store : MealStore)
    (h : ∀ m ∈ store, m.user_id ≠ userId) :
    metricsHandler userId store = Resp.http 200 (Body.metricsBody ⟨0, 0, 0, 0⟩) := by
  have huser : store.filter (fun m => m.user_id == userId) = [] := by
    rw [List.filter_eq_nil_iff]
    intro m hm
    simpa using h m hm
  have hon : store.filter (fun m => m.user_id == userId && m.is_on_diet) = [] := by
    rw [List.filter_eq_nil_iff]
    intro m hm
    simp [h m hm]
  have hoff : store.filter (fun m => m.user_id == userId && !m.is_on_diet) = [] := by
    rw [List.filter_eq_nil_iff]
    intro m hm
    simp [h m hm]
  simp [metricsHandler, computeMetrics, mealsByDateDesc, huser, hon, hoff]

/-- C8 (witness): a store holding only another user's meal. -/
theorem C8_metrics_zero_instance :
    metricsHandler "me" sampleMeals = Resp.http 200 (Body.metricsBody ⟨0, 0, 0, 0⟩) :=
  C8_metrics_zero "me" sampleMeals (by decide)

/-! ## C2: Get-by-id responds 404 exactly when the id exists for no user -/

/-- C2: with a syntactically valid UUID, Get-by-id responds 404 with the
error body if and only if no meal with that id exists for any user;
otherwise it responds 200 with the meals matching both that id and the
caller's user id. -/
theorem C2_get_by_id (userId mealId : String) (store : MealStore)
    (huuid : isUUID mealId = true) :
    (getMealByIdHandler userId mealId store
        = Resp.http 404 (Body.errorMsg "Meal not found")
      ↔ ∀ m ∈ store, m.id ≠ mealId) ∧
    ((∃ m ∈ store, m.id = mealId) →
      getMealByIdHandler userId mealId store
        = Resp.http 200 (Body.meals
            (store.filter (fun m => m.user_id == userId && m.id == mealId)))) := by
  cases hfind : store.find? (fun m => m.id == mealId) with
  | none =>
      have habs : ∀ m ∈ store, m.id ≠ mealId := by
        intro m hm
        simpa using List.find?_eq_none.mp hfind m hm
      refine ⟨⟨fun _ => habs, fun _ => ?_⟩, fun hex => ?_⟩
      · simp [getMealByIdHandler, huuid, hfind]
      · obtain ⟨m, hm, he⟩ := hex
        exact absurd he (habs m hm)
  | some m =>
      have hmem : m ∈ store := List.mem_of_find?_eq_some hfind
      have hid : m.id = mealId := by simpa using List.find?_some hfind
      refine ⟨⟨fun h => ?_, fun habs => absurd hid (habs m hmem)⟩, fun _ => ?_⟩
      · simp [getMealByIdHandler, huuid, hfind] at h
      · simp [getMealByIdHandler, huuid, hfind]

/-- C2 (witness): the statement at a concrete valid UUID and store. -/
theorem C2_get_by_id_instance :
    (getMealByIdHandler "u" sampleUUID sampleMeals
        = Resp.http 404 (Body.errorMsg "Meal not found")
      ↔ ∀ m ∈ sampleMeals, m.id ≠ sampleUUID) ∧
    ((∃ m ∈ sampleMeals, m.id = sampleUUID) →
      getMealByIdHandler "u" sampleUUID sampleMeals
        = Resp.http 200 (Body.meals
            (sampleMeals.filter (fun m => m.user_id == "u" && m.id == sampleUUID)))) :=
  C2_get_by_id "u" sampleUUID sampleMeals (by decide)

/-! ## C3: Update on another user's meal is a silent no-op -/

/-- Rows are untouched by the update's map when every row carrying the
target id belongs to a different user. -/
theorem map_update_id (userId mealId : String) (b : MealBody) (store : MealStore)
    (hforeign : ∀ m ∈ store, m.id = mealId → m.user_id ≠ userId) :
    store.map (fun m =>
      if m.user_id == userId && m.id == mealId then
        { m with
            name := b.name
            description := b.description
            is_on_diet := b.isOnDiet
            date := b.date }
      else m) = store := by
  have h : ∀ m ∈ store,
      (if m.user_id == userId && m.id == mealId then
        ({ m with
            name := b.name
            description := b.description
            is_on_diet := b.isOnDiet
            date := b.date } : Meal)
      else m) = (fun m => m) m := by
    intro m hm
    by_cases hid : m.id = mealId
    · have hu : m.user_id ≠ userId := hforeign m hm hid
      simp [hu]
    · simp [hid]
  rw [List.map_congr_left h]
  exact List.map_id' store

/-- C3: for every Update request whose meal id exists in the store but
only for users other than the caller, the handler responds 200 with an
empty body and the store — every row of it — is unchanged. -/
theorem C3_update_foreign_noop (userId mealId : String) (b : MealBody)
    (store : MealStore)
    (huuid : isUUID mealId = true)
    (hex : ∃ m ∈ store, m.id = mealId)
    (hforeign : ∀ m ∈ store, m.id = mealId → m.user_id ≠ userId) :
    updateMealHandler userId mealId (some b) store
      = (Resp.http 200 Body.empty, store) := by
  have hsome : (store.find? (fun m => m.id == mealId)).isSome := by
    rw [List.find?_isSome]
    obtain ⟨m, hm, he⟩ := hex
    exact ⟨m, hm, by simp [he]⟩
  obtain ⟨m0, hfind⟩ := Option.isSome_iff_exists.mp hsome
  simp only [updateMealHandler, huuid, if_true, hfind]
  rw [map_update_id userId mealId b store hforeign]

/-- A store holding one meal, owned by user `other`, under the sample
UUID. -/
def foreignStore : MealStore := [⟨sampleUUID, "x", "y", true, 5, "other"⟩]

/-- C3 (witness): updating that meal as user `me` reports success and
changes nothing. -/
theorem C3_update_foreign_noop_instance :
    updateMealHandler "me" sampleUUID (some ⟨"n", "d", false, 9⟩) foreignStore
      = (Resp.http 200 Body.empty, foreignStore) :=
  C3_update_foreign_noop "me" sampleUUID ⟨"n", "d", false, 9⟩ foreignStore
    (by decide) (by decide) (by decide)

/-! ## C7: Create inserts exactly one matching row -/

/-- C7: a valid Create payload yields 201 with no body and appends
exactly one meal row carrying the fresh id, the caller's user id and the
submitted fields; the caller's meal list gains exactly that record, and
the fresh id occurs exactly once in the store. -/
theorem C7_create_inserts (userId freshId : String) (b : MealBody)
    (store : MealStore)
    (hfresh : ∀ m ∈ store, m.id ≠ freshId) :
    createMealHandler userId freshId (some b) store
        = (Resp.http 201 Body.empty,
            store ++ [⟨freshId, b.name, b.description, b.isOnDiet, b.date, userId⟩]) ∧
    (createMealHandler userId freshId (some b) store).2.filter
        (fun m => m.user_id == userId)
      = store.filter (fun m => m.user_id == userId)
        ++ [⟨freshId, b.name, b.description, b.isOnDiet, b.date, userId⟩] ∧
    ((createMealHandler userId freshId (some b) store).2.filter
        (fun m => m.id == freshId)).length = 1 := by
  refine ⟨rfl, ?_, ?_⟩
  · simp [createMealHandler, List.filter_append]
  · have hnil : store.filter (fun m => m.id == freshId) = [] := by
      rw [List.filter_eq_nil_iff]
      intro m hm
      simpa using hfresh m hm
    simp [createMealHandler, List.filter_append, hnil]

/-- C7 (witness): the statement at a concrete payload and store. -/
theorem C7_create_inserts_instance :
    createMealHandler "u" "fresh-id" (some ⟨"n", "d", true, 42⟩) sampleMeals
        = (Resp.http 201 Body.empty,
            sampleMeals ++ [⟨"fresh-id", "n", "d", true, 42, "u"⟩]) ∧
    (createMealHandler "u" "fresh-id" (some ⟨"n", "d", true, 42⟩) sampleMeals).2.filter
        (fun m => m.user_id == "u")
      = sampleMeals.filter (fun m => m.user_id == "u")
        ++ [⟨"fresh-id", "n", "d", true, 42, "u"⟩] ∧
    ((createMealHandler "u" "fresh-id" (some ⟨"n", "d", true, 42⟩) sampleMeals).2.filter
        (fun m => m.id == "fresh-id")).length = 1 :=
  C7_create_inserts "u" "fresh-id" ⟨"n", "d", true, 42⟩ sampleMeals (by decide)


/-! ## C1: the streak metric is the spec's two-counter fold -/

/-- The current streak after one `reduce` step, written out. -/
theorem seqStep_current (acc : SeqAcc) (m : Meal) :
    (seqStep acc m).currentSequence
      = if m.is_on_diet then acc.currentSequence + 1 else 0 := rfl

/-- The best streak after one `reduce` step is the maximum of the old
best and the new current streak. -/
theorem seqStep_best (acc : SeqAcc) (m : Meal) :
    (seqStep acc m).bestOnDietSequence
      = max acc.bestOnDietSequence
          (if m.is_on_diet then acc.currentSequence + 1 else 0) := by
  simp only [seqStep]
  split <;> split <;> omega

/-- The code's `reduce` step agrees componentwise with the spec's fold
step on the meal's diet flag. -/
theorem seqStep_eq_specStep (b c : Nat) (m : Meal) :
    seqStep ⟨b, c⟩ m
      = ⟨(specStep (b, c) m.is_on_diet).1, (specStep (b, c) m.is_on_diet).2⟩ := by
  simp only [seqStep, specStep, SeqAcc.mk.injEq]
  refine ⟨?_, trivial⟩
  split <;> split <;> omega

/-- The code's `reduce` over a meal list is the spec's fold over the
corresponding diet-flag list. -/
theorem foldl_seqStep_eq_specStep (l : List Meal) (b c : Nat) :
    l.foldl seqStep ⟨b, c⟩
      = ⟨((l.map Meal.is_on_diet).foldl specStep (b, c)).1,
         ((l.map Meal.is_on_diet).foldl specStep (b, c)).2⟩ := by
  induction l generalizing b c with
  | nil => rfl
  | cons m t ih =>
      rw [List.foldl_cons, List.map_cons, List.foldl_cons, seqStep_eq_specStep]
      rw [ih]

/-- C1: `bestOnDietSequence` equals the spec's single left-to-right
two-counter fold over the diet flags of the date-descending meal list;
in particular, on the flag sequence
`[true, true, false, true, true, true, false]` it returns 3. -/
theorem C1_best_sequence_fold :
    (∀ userId store,
      (computeMetrics userId store).bestOnDietSequence
        = specBestSequence ((mealsByDateDesc userId store).map Meal.is_on_diet)) ∧
    specBestSequence [true, true, false, true, true, true, false] = 3 ∧
    (mealsByDateDesc "u" sampleMeals).map Meal.is_on_diet
      = [true, true, false, true, true, true, false] ∧
    (computeMetrics "u" sampleMeals).bestOnDietSequence = 3 := by
  refine ⟨?_, by decide, by decide, by decide⟩
  intro userId store
  simp [computeMetrics, specBestSequence, foldl_seqStep_eq_specStep]

/-! ## C9: bestOnDietSequence ≤ totalMealsOnDiet ≤ totalMeals -/

/-- After the fold, the current streak is bounded by the starting streak
plus the number of on-diet meals seen, and the best streak by the
starting best against that same bound. -/
theorem foldl_seqStep_le (l : List Meal) (acc : SeqAcc) :
    (l.foldl seqStep acc).currentSequence
        ≤ acc.currentSequence + l.countP Meal.is_on_diet ∧
    (l.foldl seqStep acc).bestOnDietSequence
        ≤ max acc.bestOnDietSequence
            (acc.currentSequence + l.countP Meal.is_on_diet) := by
  induction l generalizing acc with
  | nil => simp
  | cons m t ih =>
      obtain ⟨ihc, ihb⟩ := ih (seqStep acc m)
      rw [seqStep_current] at ihc
      rw [seqStep_best, seqStep_current] at ihb
      rw [List.foldl_cons, List.countP_cons]
      constructor
      · refine le_trans ihc ?_
        split <;> omega
      · refine le_trans ihb ?_
        split <;> omega

/-- The streak `reduce` from the zero accumulator is bounded by the
number of on-diet meals in the list. -/
theorem foldl_seqStep_best_le_countP (l : List Meal) :
    (l.foldl seqStep ⟨0, 0⟩).bestOnDietSequence ≤ l.countP Meal.is_on_diet := by
  have h := (foldl_seqStep_le l ⟨0, 0⟩).2
  simpa using h

/-- C9: for every user and store, the metrics satisfy
`bestOnDietSequence ≤ totalMealsOnDiet ≤ totalMeals`. -/
theorem C9_metrics_inequalities (userId : String) (store : MealStore) :
    (computeMetrics userId store).bestOnDietSequence
        ≤ (computeMetrics userId store).totalMealsOnDiet ∧
    (computeMetrics userId store).totalMealsOnDiet
        ≤ (computeMetrics userId store).totalMeals := by
  have hperm := List.perm_insertionSort (fun a b : Meal => b.date ≤ a.date)
      (store.filter (fun m => m.user_id == userId))
  have hcount : (mealsByDateDesc userId store).countP Meal.is_on_diet
      = (store.filter (fun m => m.user_id == userId && m.is_on_diet)).length := by
    rw [mealsByDateDesc, hperm.countP_eq, ← List.countP_eq_length_filter,
      List.countP_filter]
    simp [Bool.and_comm]
  have hlen : (mealsByDateDesc userId store).length
      = (store.filter (fun m => m.user_id == userId)).length :=
    hperm.length_eq
  constructor
  · have hb := foldl_seqStep_best_le_countP (mealsByDateDesc userId store)
    rw [hcount] at hb
    simpa [computeMetrics] using hb
  · have hc : (mealsByDateDesc userId store).countP Meal.is_on_diet
        ≤ (mealsByDateDesc userId store).length :=
      List.countP_le_length Meal.is_on_diet
    rw [hcount, hlen] at hc
    simpa [computeMetrics, mealsByDateDesc, hperm.length_eq] using hc
